import Mathlib

/-!
Shallow embedding of `gear-lib/libgevent/libgevent.c` (the event reactor core).

Events and bases are modelled as Lean structures; C pointers to events are
modelled as natural-number identifiers (`0` is never used as an identifier,
null pointers are `Option.none`).  Side effects on the operating system
(opening/closing descriptors, writing the wakeup byte, freeing memory,
backend calls) are modelled as an explicit trace of `Effect`s.  Fallible C
functions returning `NULL` are modelled with `Option`.  Out-of-memory and
syscall failures are injected as boolean/`Option` parameters so that every
control path of the source is representable.
-/

namespace LibGevent

/-- An observable side effect of the reactor core on its environment:
descriptor operations, memory management, backend-ops calls, and the
out-of-range registry access that the teardown loop can perform. -/
inductive Effect where
  | openFd (fd : Int)
  | closeFd (fd : Int)
  | writeByte (fd : Int)
  | initCtx (ctx : Nat)
  | deinitCtx (ctx : Nat)
  | backendAdd (e : Nat)
  | backendDel (e : Nat)
  | freeEvent (e : Nat)
  | freeStruct
  | freeBase
  | armTimer (fd : Int) (sec nsec : Int)
  | oobRead (idx : Int)
  | freeGarbage
  deriving DecidableEq, Repr

/-- The flag set of an event.  Modelled from the spec: the data model calls
`flags` a "set of {Readable, Writable, Error, Persist}" (the concrete bit
values live in `libgevent.h`, which is not part of the core source file). -/
structure GeventFlags where
  readable : Bool
  writable : Bool
  error : Bool
  persist : Bool
  deriving DecidableEq, Repr

/-- `struct itimerspec` as filled in by `gevent_timer_create`:
initial delay (`it_value`) and recurring interval (`it_interval`). -/
structure ITimerSpec where
  it_value_sec : Int
  it_value_nsec : Int
  it_interval_sec : Int
  it_interval_nsec : Int
  deriving DecidableEq, Repr

/-- The callback bundle `struct gevent_cbs`: up to one callback per kind
(function pointers modelled as `Option Nat`, `none` = NULL), the opaque
user argument, and the timer specification. -/
structure GeventCb where
  ev_in : Option Nat
  ev_out : Option Nat
  ev_err : Option Nat
  ev_timer : Option Nat
  args : Option Nat
  itimer : ITimerSpec
  deriving DecidableEq, Repr

/-- `struct gevent`: one registered interest (descriptor, flags, callbacks). -/
structure Gevent where
  evfd : Int
  flags : GeventFlags
  evcb : GeventCb
  deriving DecidableEq, Repr

/-- `struct gevent_base`: the reactor.  The registry `ev_array` holds event
identifiers (C pointers); `inner_event` is the identifier of the internal
wakeup event registered at construction time. -/
structure GeventBase where
  loop : Bool
  rfd : Int
  wfd : Int
  ctx : Nat
  ev_array : List Nat
  inner_event : Nat
  deriving DecidableEq, Repr

/-- The zeroed `itimerspec` produced by `calloc`. -/
def zeroTimer : ITimerSpec := ⟨0, 0, 0, 0⟩

/-- Modelled from the spec: the dynamic-array container (`libdarray.h`, not
part of the core source file) exposes `push_back`, which appends one element
at the end, insertion order = registration order. -/
def da_push_back (l : List Nat) (v : Nat) : List Nat := l ++ [v]

/-- Modelled from the spec: the dynamic-array container exposes `erase_item`,
which locates the entry by identity (pointer equality), removes that one
entry and does not disturb the relative order of the remaining entries. -/
def da_erase_item : List Nat → Nat → List Nat
  | [], _ => []
  | x :: xs, v => if x = v then xs else x :: da_erase_item xs v

/-- Reading registry slot `idx` (the C expression `ev_array.array + idx`):
defined only for `0 ≤ idx < num`; outside that range the read is
out-of-bounds and yields no value. -/
def registrySlot (reg : List Nat) (idx : Int) : Option Nat :=
  if 0 ≤ idx ∧ idx < (reg.length : Int) then reg[idx.toNat]? else none

/-- One pass of the `do { ... } while (num > 0)` teardown loop in
`gevent_base_destroy`: take the slot at index `num-1`, `da_erase_item` it,
`free` the value read there, and repeat while the registry is non-empty.
When the registry is already empty the body still runs once (do-while), the
slot index is `-1` and the code reads out of range and frees a garbage
pointer.  `fuel` bounds the recursion; `teardown` supplies enough. -/
def teardown_go : Nat → List Nat → List Effect
  | 0, _ => []
  | fuel + 1, reg =>
    let idx : Int := (reg.length : Int) - 1
    match registrySlot reg idx with
    | some v =>
        let reg' := da_erase_item reg v
        Effect.freeEvent v :: (if 0 < reg'.length then teardown_go fuel reg' else [])
    | none =>
        Effect.oobRead idx :: Effect.freeGarbage ::
          (if 0 < reg.length then teardown_go fuel reg else [])

/-- The teardown loop of `gevent_base_destroy`, run on the registry that
remains after the internal event has been removed. -/
def teardown (reg : List Nat) : List Effect := teardown_go (reg.length + 1) reg

/-- `gevent_base_destroy`: null check, break a running loop, unregister and
free the internal event, close both pipe ends, deinit the backend context,
drain the registry with the do-while loop, free the base. -/
def gevent_base_destroy : Option GeventBase → List Effect
  | none => []
  | some eb =>
    (if eb.loop then [Effect.writeByte eb.wfd] else [])
      ++ [Effect.backendDel eb.inner_event]
      ++ [Effect.freeEvent eb.inner_event]
      ++ [Effect.closeFd eb.rfd, Effect.closeFd eb.wfd, Effect.deinitCtx eb.ctx]
      ++ teardown (da_erase_item eb.ev_array eb.inner_event)
      ++ [Effect.freeBase]

/-- `gevent_create`: allocate, copy the three I/O callbacks and the user
argument, build the flag word from which callbacks are non-null, always set
`EVENT_PERSIST`, store the descriptor.  `alloc_ok = false` injects a
`calloc` failure, the only failing path.  -/
def gevent_create (alloc_ok : Bool) (fd : Int)
    (ev_in ev_out ev_err : Option Nat) (args : Option Nat) : Option Gevent :=
  if alloc_ok then
    some
      { evfd := fd
        flags :=
          { readable := ev_in.isSome
            writable := ev_out.isSome
            error := ev_err.isSome
            persist := true }
        evcb :=
          { ev_in := ev_in, ev_out := ev_out, ev_err := ev_err
            ev_timer := none, args := args, itimer := zeroTimer } }
  else none

/-- `gevent_destroy`: null check, then `free`.  The function never reads a
field, so the event is just its identifier here. -/
def gevent_destroy : Option Nat → List Effect
  | none => []
  | some p => [Effect.freeEvent p]

/-- `gevent_timer_destroy`: null check; `close(e->evfd)` guarded by
`if (e->evfd)` (C truthiness: any nonzero descriptor); then `free(e)`. -/
def gevent_timer_destroy : Option Gevent → List Effect
  | none => []
  | some e => (if e.evfd ≠ 0 then [Effect.closeFd e.evfd] else []) ++ [Effect.freeStruct]

/-- `enum gevent_timer_type`. -/
inductive GeventTimerType where
  | TIMER_ONESHOT
  | TIMER_PERSIST
  deriving DecidableEq, Repr

/-- `time_t sec = msec/1000;` — C division truncates toward zero. -/
def timer_sec (msec : Int) : Int := Int.tdiv msec 1000

/-- `long nsec = (msec-sec*1000)*1000000;`. -/
def timer_nsec (msec : Int) : Int := (msec - timer_sec msec * 1000) * 1000000

/-- `gevent_timer_create`: split the period, allocate, install `ev_timer`
with null I/O callbacks, set `EVENT_READ` and derive `EVENT_PERSIST` from
the timer type, create the timerfd, arm it with `it_value = it_interval =
(sec, nsec)`.  Failure injection: `alloc_ok` for `calloc`, `fd? = none` for
`timerfd_create`, `settime_ok` for `timerfd_settime`.  Every `goto failed`
path frees the struct (when allocated) and returns NULL; note that the
settime-failure path does not close the already-created descriptor. -/
def gevent_timer_create (alloc_ok : Bool) (fd? : Option Int) (settime_ok : Bool)
    (msec : Int) (ty : GeventTimerType) (ev_timer : Option Nat) (args : Option Nat) :
    Option Gevent × List Effect :=
  let sec := timer_sec msec
  let nsec := timer_nsec msec
  if alloc_ok then
    match fd? with
    | none => (none, [Effect.freeStruct])
    | some fd =>
      if settime_ok then
        (some
          { evfd := fd
            flags :=
              { readable := true, writable := false, error := false
                persist :=
                  match ty with
                  | GeventTimerType.TIMER_PERSIST => true
                  | GeventTimerType.TIMER_ONESHOT => false }
            evcb :=
              { ev_in := none, ev_out := none, ev_err := none
                ev_timer := ev_timer, args := args
                itimer := ⟨sec, nsec, sec, nsec⟩ } },
          [Effect.openFd fd, Effect.armTimer fd sec nsec])
      else (none, [Effect.openFd fd, Effect.freeStruct])
  else (none, [])

/-- `gevent_base_create` (state part): zeroed base, `loop = 1`, pipe ends
stored, empty registry, then the internal wakeup event is registered through
`gevent_add2` (push onto the registry plus a backend add). -/
def gevent_base_create_state (ctx : Nat) (rfd wfd : Int) (innerId : Nat) : GeventBase :=
  { loop := true, rfd := rfd, wfd := wfd, ctx := ctx
    ev_array := da_push_back [] innerId, inner_event := innerId }

/-- `gevent_base_create` (result and effect trace).  Failure injection:
`pipe_ok` for `pipe()`, `alloc_ok` for `calloc`, `ops_ok` for the backend
table lookup, `inner_ok` for the inner `gevent_create`.  The `calloc`
failure path closes both pipe descriptors; both `goto failed` paths only
`free(eb)` — they close no descriptor and do not deinit the context. -/
def gevent_base_create (pipe_ok alloc_ok ops_ok inner_ok : Bool)
    (rfd wfd : Int) (ctx : Nat) (innerId : Nat) :
    Option GeventBase × List Effect :=
  if pipe_ok then
    let opens := [Effect.openFd rfd, Effect.openFd wfd]
    if alloc_ok then
      if ops_ok then
        if inner_ok then
          (some (gevent_base_create_state ctx rfd wfd innerId),
            opens ++ [Effect.initCtx ctx, Effect.backendAdd innerId])
        else (none, opens ++ [Effect.initCtx ctx, Effect.freeBase])
      else (none, opens ++ [Effect.freeBase])
    else (none, opens ++ [Effect.closeFd rfd, Effect.closeFd wfd])
  else (none, [])

/-- `gevent_base_signal`: write one wakeup byte to the write end; the base
state is untouched.  Defined on a non-null base (the C function performs no
null check before dereferencing `eb->wfd`). -/
def gevent_base_signal (eb : GeventBase) : GeventBase × List Effect :=
  (eb, [Effect.writeByte eb.wfd])

/-- `gevent_base_loop_break`: clear the loop flag, then write one wakeup
byte to the write end.  Nothing else is touched. -/
def gevent_base_loop_break (eb : GeventBase) : GeventBase × List Effect :=
  ({ eb with loop := false }, [Effect.writeByte eb.wfd])

/-- Outcome of calling `gevent_base_signal` through a possibly-null base
pointer: the C function has no null guard, so a null base is dereferenced. -/
inductive SignalOutcome where
  | ok (eb : GeventBase) (effects : List Effect)
  | nullDeref
  deriving DecidableEq, Repr

/-- A call of `gevent_base_signal(eb)` with `eb` possibly NULL. -/
def gevent_base_signal_call : Option GeventBase → SignalOutcome
  | none => SignalOutcome.nullDeref
  | some eb =>
      let r := gevent_base_signal eb
      SignalOutcome.ok r.1 r.2

/-- Result of one of the registration entry points: the returned code, the
base state after the call (`none` when the base pointer was null), and the
effect trace.  -/
structure CallResult where
  ret : Int
  base : Option GeventBase
  effects : List Effect
  deriving DecidableEq, Repr

/-- `gevent_add`: `if (!e || !eb) return -1;` else forward to the backend
(whose return code is the oracle `backendRet`).  No registry change. -/
def gevent_add_call (backendRet : Int) :
    Option GeventBase → Option Nat → CallResult
  | some eb, some e => ⟨backendRet, some eb, [Effect.backendAdd e]⟩
  | eb?, _ => ⟨-1, eb?, []⟩

/-- `gevent_add2`: null check as `gevent_add`, then `da_push_back` onto the
registry and forward to the backend. -/
def gevent_add2_call (backendRet : Int) :
    Option GeventBase → Option Nat → CallResult
  | some eb, some e =>
      ⟨backendRet, some { eb with ev_array := da_push_back eb.ev_array e },
        [Effect.backendAdd e]⟩
  | eb?, _ => ⟨-1, eb?, []⟩

/-- `gevent_del`: null check, then forward to the backend. -/
def gevent_del_call (backendRet : Int) :
    Option GeventBase → Option Nat → CallResult
  | some eb, some e => ⟨backendRet, some eb, [Effect.backendDel e]⟩
  | eb?, _ => ⟨-1, eb?, []⟩

/-- `gevent_del2`: null check, backend del, then `da_erase_item` from the
registry. -/
def gevent_del2_call (backendRet : Int) :
    Option GeventBase → Option Nat → CallResult
  | some eb, some e =>
      ⟨backendRet, some { eb with ev_array := da_erase_item eb.ev_array e },
        [Effect.backendDel e]⟩
  | eb?, _ => ⟨-1, eb?, []⟩

/-- `gevent_base_loop`: `while (eb->loop) { ret = dispatch(...); if (ret == -1) log; }`.
`dispatch` is an oracle that may mutate the whole base (the backend drains
the pipe and runs callbacks, which may call `gevent_base_loop_break`).
Returns the list of (state at call, return code) pairs for each `dispatch`
invocation and, when the loop exited within `fuel` iterations, the final
state (`none` when the observation budget ran out first). -/
def gevent_base_loop_run (dispatch : GeventBase → GeventBase × Int) :
    Nat → GeventBase → List (GeventBase × Int) × Option GeventBase
  | 0, _ => ([], none)
  | fuel + 1, s =>
    if s.loop then
      let d := dispatch s
      let rest := gevent_base_loop_run dispatch fuel d.1
      ((s, d.2) :: rest.1, rest.2)
    else ([], some s)

/-- A concrete base as produced by `gevent_base_create` (backend context 0,
pipe descriptors 3 and 4, internal event identifier 7). -/
def base0 : GeventBase := gevent_base_create_state 0 3 4 7

/-- `base0` after its loop flag has been cleared. -/
def base0Stopped : GeventBase := { base0 with loop := false }

/-- A dispatch oracle that stops the loop and reports success. -/
def dStop : GeventBase → GeventBase × Int :=
  fun s => ({ s with loop := false }, 0)

/-- A dispatch oracle with the same state transition as `dStop` but
reporting the failure sentinel `-1`. -/
def dStopErr : GeventBase → GeventBase × Int :=
  fun s => ({ s with loop := false }, -1)

/-- A concrete timer event: descriptor 0 (as when the field was never
assigned), persistent, timer callback 1. -/
def timerEvZero : Gevent :=
  { evfd := 0
    flags := { readable := true, writable := false, error := false, persist := true }
    evcb := { ev_in := none, ev_out := none, ev_err := none
              ev_timer := some 1, args := none, itimer := zeroTimer } }

/-- `timerEvZero` with descriptor 5. -/
def timerEvFive : Gevent := { timerEvZero with evfd := 5 }

/-- The event `gevent_timer_create true (some 5) true 1536 TIMER_PERSIST
(some 2) none` returns: period 1536 ms splits into 1 s and 536000000 ns. -/
def timerEvP : Gevent :=
  { evfd := 5
    flags := { readable := true, writable := false, error := false, persist := true }
    evcb := { ev_in := none, ev_out := none, ev_err := none
              ev_timer := some 2, args := none
              itimer := ⟨1, 536000000, 1, 536000000⟩ } }

/-- The event `gevent_timer_create true (some 6) true 2500 TIMER_PERSIST
(some 3) none` returns: period 2500 ms splits into 2 s and 500000000 ns. -/
def timerEvC7 : Gevent :=
  { evfd := 6
    flags := { readable := true, writable := false, error := false, persist := true }
    evcb := { ev_in := none, ev_out := none, ev_err := none
              ev_timer := some 3, args := none
              itimer := ⟨2, 500000000, 2, 500000000⟩ } }

/- ------------------------------------------------------------------ -/
/- Helper lemmas for the loop theorems.                               -/
/- ------------------------------------------------------------------ -/

theorem loop_run_calls_only_running (dispatch : GeventBase → GeventBase × Int) :
    ∀ (fuel : Nat) (s : GeventBase),
      ∀ p ∈ (gevent_base_loop_run dispatch fuel s).1, p.1.loop = true := by
  intro fuel
  induction fuel with
  | zero => intro s p hp; simp [gevent_base_loop_run] at hp
  | succ n ih =>
    intro s p hp
    by_cases hs : s.loop
    · simp only [gevent_base_loop_run, hs, if_true, List.mem_cons] at hp
      rcases hp with hp | hp
      · rw [hp]; exact hs
      · exact ih _ p hp
    · simp [gevent_base_loop_run, hs] at hp

theorem loop_run_exits_stopped (dispatch : GeventBase → GeventBase × Int) :
    ∀ (fuel : Nat) (s : GeventBase) (s' : GeventBase),
      (gevent_base_loop_run dispatch fuel s).2 = some s' → s'.loop = false := by
  intro fuel
  induction fuel with
  | zero => intro s s' hfin; simp [gevent_base_loop_run] at hfin
  | succ n ih =>
    intro s s' hfin
    by_cases hs : s.loop
    · simp only [gevent_base_loop_run, hs, if_true] at hfin
      exact ih _ s' hfin
    · simp only [gevent_base_loop_run, if_neg hs, Option.some.injEq] at hfin
      rw [← hfin]
      simpa using hs

theorem loop_run_ret_independent (d₁ d₂ : GeventBase → GeventBase × Int)
    (hsame : ∀ t, (d₂ t).1 = (d₁ t).1) :
    ∀ (fuel : Nat) (s : GeventBase),
      (gevent_base_loop_run d₂ fuel s).1.map Prod.fst
          = (gevent_base_loop_run d₁ fuel s).1.map Prod.fst
        ∧ (gevent_base_loop_run d₂ fuel s).2 = (gevent_base_loop_run d₁ fuel s).2 := by
  intro fuel
  induction fuel with
  | zero => intro s; simp [gevent_base_loop_run]
  | succ n ih =>
    intro s
    by_cases hs : s.loop
    · simp only [gevent_base_loop_run, hs, if_true, List.map_cons]
      rw [hsame s]
      have h1 := ih (d₁ s).1
      exact ⟨by rw [h1.1], h1.2⟩
    · simp [gevent_base_loop_run, hs]

/- ------------------------------------------------------------------ -/
/- Claim theorems.                                                    -/
/- ------------------------------------------------------------------ -/

/-- Claim C1 (evaluated at the failing input): destroying a base that has
seen zero caller `add_tracked` registrations (so the registry is empty once
the internal event has been removed) makes the do-while teardown loop run
its body once anyway: it reads registry slot `-1` — outside the valid range
`[0, count)` — and frees the garbage pointer found there.  The claim's
"never reads a registry slot outside [0, count)" is therefore violated. -/
theorem gevent_base_destroy_empty_registry_oob :
    gevent_base_destroy (some base0) =
      [Effect.writeByte 4, Effect.backendDel 7, Effect.freeEvent 7,
       Effect.closeFd 3, Effect.closeFd 4, Effect.deinitCtx 0,
       Effect.oobRead (-1), Effect.freeGarbage, Effect.freeBase]
    ∧ Effect.oobRead (-1) ∈ gevent_base_destroy (some base0) := by
  constructor <;> decide

/-- Claim C2 (counterexample): `gevent_base_signal` performs no null check —
unlike the add/del entry points it dereferences its argument immediately, so
a null base crashes instead of being rejected with a negative result code. -/
theorem gevent_base_signal_null_crash :
    gevent_base_signal_call none = SignalOutcome.nullDeref := rfl

/-- Claim C2 (amended): `gevent_add`, `gevent_add2`, `gevent_del` and
`gevent_del2` return `-1` and perform no other action when the base or the
event argument is null; `gevent_base_signal`, by contrast, has no null
guard and dereferences a null base. -/
theorem null_args_rejected (r : Int) (eb? : Option GeventBase) (e? : Option Nat)
    (h : eb? = none ∨ e? = none) :
    gevent_add_call r eb? e? = ⟨-1, eb?, []⟩
    ∧ gevent_add2_call r eb? e? = ⟨-1, eb?, []⟩
    ∧ gevent_del_call r eb? e? = ⟨-1, eb?, []⟩
    ∧ gevent_del2_call r eb? e? = ⟨-1, eb?, []⟩
    ∧ gevent_base_signal_call none = SignalOutcome.nullDeref := by
  cases eb? with
  | none => exact ⟨rfl, rfl, rfl, rfl, rfl⟩
  | some eb =>
    cases e? with
    | none => exact ⟨rfl, rfl, rfl, rfl, rfl⟩
    | some e => rcases h with h | h <;> exact absurd h (by simp)

/-- Witness for C2's amended theorem: a null event with a live base. -/
theorem null_args_rejected_witness :
    gevent_add_call 0 (some base0) none = ⟨-1, some base0, []⟩
    ∧ gevent_add2_call 0 (some base0) none = ⟨-1, some base0, []⟩
    ∧ gevent_del_call 0 (some base0) none = ⟨-1, some base0, []⟩
    ∧ gevent_del2_call 0 (some base0) none = ⟨-1, some base0, []⟩
    ∧ gevent_base_signal_call none = SignalOutcome.nullDeref :=
  null_args_rejected 0 (some base0) none (Or.inr rfl)

/-- Claim C3 (evaluated at the failing inputs): when `gevent_base_create`
fails at the inner-event step, its `failed:` path only frees the base — the
two pipe descriptors stay open and the backend context is never deinited;
when `gevent_timer_create` fails at `timerfd_settime`, its `failed:` path
only frees the struct — the already-created timer descriptor stays open.
Both contradict the claim that every descriptor opened so far is closed. -/
theorem create_failure_paths_leak :
    ((gevent_base_create true true true false 3 4 0 7).1 = none
      ∧ Effect.openFd 3 ∈ (gevent_base_create true true true false 3 4 0 7).2
      ∧ Effect.openFd 4 ∈ (gevent_base_create true true true false 3 4 0 7).2
      ∧ Effect.closeFd 3 ∉ (gevent_base_create true true true false 3 4 0 7).2
      ∧ Effect.closeFd 4 ∉ (gevent_base_create true true true false 3 4 0 7).2
      ∧ Effect.deinitCtx 0 ∉ (gevent_base_create true true true false 3 4 0 7).2)
    ∧ ((gevent_timer_create true (some 5) false 1000
          GeventTimerType.TIMER_PERSIST (some 1) none).1 = none
      ∧ Effect.openFd 5 ∈ (gevent_timer_create true (some 5) false 1000
          GeventTimerType.TIMER_PERSIST (some 1) none).2
      ∧ Effect.closeFd 5 ∉ (gevent_timer_create true (some 5) false 1000
          GeventTimerType.TIMER_PERSIST (some 1) none).2) := by
  constructor <;> decide

/-- Claim C4: `gevent_base_loop` calls `dispatch` only from states where the
loop flag is true, exits only in a state where the flag is false, and its
control flow is independent of the codes `dispatch` returns — replacing
every return code (e.g. by the failure sentinel `-1`) changes neither the
sequence of states at which `dispatch` is called nor the exit state, so a
`-1` never terminates the loop. -/
theorem gevent_base_loop_spec (dispatch : GeventBase → GeventBase × Int)
    (fuel : Nat) (s : GeventBase) :
    (∀ p ∈ (gevent_base_loop_run dispatch fuel s).1, p.1.loop = true)
    ∧ (∀ s', (gevent_base_loop_run dispatch fuel s).2 = some s' → s'.loop = false)
    ∧ (∀ d₂ : GeventBase → GeventBase × Int, (∀ t, (d₂ t).1 = (dispatch t).1) →
        (gevent_base_loop_run d₂ fuel s).1.map Prod.fst
            = (gevent_base_loop_run dispatch fuel s).1.map Prod.fst
          ∧ (gevent_base_loop_run d₂ fuel s).2
            = (gevent_base_loop_run dispatch fuel s).2) :=
  ⟨loop_run_calls_only_running dispatch fuel s,
   loop_run_exits_stopped dispatch fuel s,
   fun d₂ hsame => loop_run_ret_independent dispatch d₂ hsame fuel s⟩

/-- Witness for C4: a running base with a dispatch that stops the loop; the
error-reporting variant `dStopErr` visits the same states and exits. -/
theorem gevent_base_loop_spec_witness :
    base0.loop = true
    ∧ base0Stopped.loop = false
    ∧ ((gevent_base_loop_run dStopErr 2 base0).1.map Prod.fst
          = (gevent_base_loop_run dStop 2 base0).1.map Prod.fst
        ∧ (gevent_base_loop_run dStopErr 2 base0).2
          = (gevent_base_loop_run dStop 2 base0).2) := by
  have h := gevent_base_loop_spec dStop 2 base0
  exact ⟨h.1 (base0, 0) (by decide),
         h.2.1 base0Stopped (by decide),
         h.2.2 dStopErr (fun t => rfl)⟩

/-- Claim C5: for every descriptor, argument and callback combination,
`gevent_create` under a successful allocation returns an event whose
Readable/Writable/Error flags are exactly the non-nullness of the three
callbacks, whose Persist flag is set, whose timer callback is null and whose
descriptor and user argument are the inputs; under allocation failure it
returns null. -/
theorem gevent_create_spec (fd : Int) (i o e a : Option Nat) :
    (∃ ev, gevent_create true fd i o e a = some ev
      ∧ ev.flags.readable = i.isSome
      ∧ ev.flags.writable = o.isSome
      ∧ ev.flags.error = e.isSome
      ∧ ev.flags.persist = true
      ∧ ev.evcb.ev_timer = none
      ∧ ev.evfd = fd
      ∧ ev.evcb.args = a
      ∧ ev.evcb.ev_in = i ∧ ev.evcb.ev_out = o ∧ ev.evcb.ev_err = e)
    ∧ gevent_create false fd i o e a = none :=
  ⟨⟨_, rfl, rfl, rfl, rfl, rfl, rfl, rfl, rfl, rfl, rfl, rfl⟩, rfl⟩

/-- Claim C6: every successfully created timer event has the Readable flag,
has Persist exactly when the recurrence is `TIMER_PERSIST` (clear for
`TIMER_ONESHOT`), carries the supplied timer callback, and has all three I/O
callbacks null — the two callback sets never mix. -/
theorem gevent_timer_create_kinds (ok : Bool) (fd? : Option Int) (st : Bool)
    (msec : Int) (ty : GeventTimerType) (cb a : Option Nat) (ev : Gevent)
    (h : (gevent_timer_create ok fd? st msec ty cb a).1 = some ev) :
    ev.flags.readable = true
    ∧ (ev.flags.persist = true ↔ ty = GeventTimerType.TIMER_PERSIST)
    ∧ (ty = GeventTimerType.TIMER_ONESHOT → ev.flags.persist = false)
    ∧ ev.evcb.ev_timer = cb
    ∧ ev.evcb.ev_in = none ∧ ev.evcb.ev_out = none ∧ ev.evcb.ev_err = none := by
  cases ok with
  | false => exact absurd h (by simp [gevent_timer_create])
  | true =>
    cases fd? with
    | none => exact absurd h (by simp [gevent_timer_create])
    | some fd =>
      cases st with
      | false => exact absurd h (by simp [gevent_timer_create])
      | true =>
        simp only [gevent_timer_create, if_true, Option.some.injEq] at h
        subst h
        cases ty <;> simp

/-- Witness for C6: a persistent 1536 ms timer on descriptor 5. -/
theorem gevent_timer_create_kinds_witness :
    timerEvP.flags.readable = true
    ∧ (timerEvP.flags.persist = true
        ↔ GeventTimerType.TIMER_PERSIST = GeventTimerType.TIMER_PERSIST)
    ∧ (GeventTimerType.TIMER_PERSIST = GeventTimerType.TIMER_ONESHOT
        → timerEvP.flags.persist = false)
    ∧ timerEvP.evcb.ev_timer = some 2
    ∧ timerEvP.evcb.ev_in = none ∧ timerEvP.evcb.ev_out = none
    ∧ timerEvP.evcb.ev_err = none :=
  gevent_timer_create_kinds true (some 5) true 1536
    GeventTimerType.TIMER_PERSIST (some 2) none timerEvP (by decide)

/-- Claim C7: for every non-negative period `msec`, the split `sec =
msec/1000`, `nsec = (msec - sec*1000)*1000000` satisfies
`sec*10^9 + nsec = msec*10^6` with `0 ≤ nsec < 10^9`, and the armed timer's
initial delay equals its recurring interval, both equal to that split. -/
theorem gevent_timer_split_spec (msec : Int) (h : 0 ≤ msec) :
    timer_sec msec * 1000000000 + timer_nsec msec = msec * 1000000
    ∧ 0 ≤ timer_nsec msec
    ∧ timer_nsec msec < 1000000000
    ∧ ∀ (fd : Int) (ty : GeventTimerType) (cb a : Option Nat) (ev : Gevent),
        (gevent_timer_create true (some fd) true msec ty cb a).1 = some ev →
        ev.evcb.itimer =
          ⟨timer_sec msec, timer_nsec msec, timer_sec msec, timer_nsec msec⟩ := by
  obtain ⟨n, rfl⟩ := Int.eq_ofNat_of_zero_le h
  have htd : timer_sec (n : Int) = ((n / 1000 : Nat) : Int) := rfl
  have hns : timer_nsec (n : Int)
      = ((n : Int) - ((n / 1000 : Nat) : Int) * 1000) * 1000000 := by
    simp [timer_nsec, htd]
  have hdm := Nat.div_add_mod n 1000
  refine ⟨?_, ?_, ?_, ?_⟩
  · rw [htd, hns]; push_cast; omega
  · rw [hns]; push_cast; omega
  · rw [hns]; push_cast; omega
  · intro fd ty cb a ev hev
    simp only [gevent_timer_create, if_true, Option.some.injEq] at hev
    subst hev
    rfl

/-- Witness for C7: period 2500 ms splits into 2 s + 500000000 ns. -/
theorem gevent_timer_split_spec_witness :
    timer_sec 2500 * 1000000000 + timer_nsec 2500 = 2500 * 1000000
    ∧ 0 ≤ timer_nsec 2500
    ∧ timer_nsec 2500 < 1000000000
    ∧ timerEvC7.evcb.itimer =
        ⟨timer_sec 2500, timer_nsec 2500, timer_sec 2500, timer_nsec 2500⟩ := by
  have h := gevent_timer_split_spec 2500 (by decide)
  exact ⟨h.1, h.2.1, h.2.2.1,
         h.2.2.2 6 GeventTimerType.TIMER_PERSIST (some 3) none timerEvC7 (by decide)⟩

/-- Claim C8: `gevent_base_signal` writes exactly one byte to the wakeup
pipe's write end and leaves every component of the base — loop flag,
registry, backend context, both pipe descriptors, inner event — unchanged. -/
theorem gevent_base_signal_frame (eb : GeventBase) :
    (gevent_base_signal eb).1.loop = eb.loop
    ∧ (gevent_base_signal eb).1.ev_array = eb.ev_array
    ∧ (gevent_base_signal eb).1.ctx = eb.ctx
    ∧ (gevent_base_signal eb).1.rfd = eb.rfd
    ∧ (gevent_base_signal eb).1.wfd = eb.wfd
    ∧ (gevent_base_signal eb).1.inner_event = eb.inner_event
    ∧ (gevent_base_signal eb).1 = eb
    ∧ (gevent_base_signal eb).2 = [Effect.writeByte eb.wfd] :=
  ⟨rfl, rfl, rfl, rfl, rfl, rfl, rfl, rfl⟩

/-- Claim C9: `gevent_base_loop_break` clears the loop flag, writes exactly
one byte to the wakeup pipe's write end, and changes nothing else (registry,
backend context, pipe descriptors all unchanged; no join). -/
theorem gevent_base_loop_break_spec (eb : GeventBase) :
    (gevent_base_loop_break eb).1.loop = false
    ∧ (gevent_base_loop_break eb).1.ev_array = eb.ev_array
    ∧ (gevent_base_loop_break eb).1.ctx = eb.ctx
    ∧ (gevent_base_loop_break eb).1.rfd = eb.rfd
    ∧ (gevent_base_loop_break eb).1.wfd = eb.wfd
    ∧ (gevent_base_loop_break eb).1.inner_event = eb.inner_event
    ∧ (gevent_base_loop_break eb).2 = [Effect.writeByte eb.wfd] :=
  ⟨rfl, rfl, rfl, rfl, rfl, rfl, rfl⟩

/-- Claim C10: `gevent_base_destroy`, `gevent_destroy` and
`gevent_timer_destroy` are no-ops on a null argument; `gevent_timer_destroy`
closes the event's descriptor only when it is nonzero, so an event with
descriptor 0 is freed without any close. -/
theorem destroy_null_noop :
    gevent_base_destroy none = []
    ∧ gevent_destroy none = []
    ∧ gevent_timer_destroy none = []
    ∧ ∀ e : Gevent,
        (e.evfd = 0 → gevent_timer_destroy (some e) = [Effect.freeStruct])
        ∧ (e.evfd ≠ 0 →
            gevent_timer_destroy (some e) = [Effect.closeFd e.evfd, Effect.freeStruct]) := by
  refine ⟨rfl, rfl, rfl, fun e => ⟨fun h0 => ?_, fun hn => ?_⟩⟩
  · simp [gevent_timer_destroy, h0]
  · simp [gevent_timer_destroy, hn]

/-- Witness for C10: a timer event with descriptor 0 is freed without a
close; one with descriptor 5 closes descriptor 5 and is then freed. -/
theorem destroy_null_noop_witness :
    gevent_timer_destroy (some timerEvZero) = [Effect.freeStruct]
    ∧ gevent_timer_destroy (some timerEvFive)
        = [Effect.closeFd timerEvFive.evfd, Effect.freeStruct] :=
  ⟨(destroy_null_noop.2.2.2 timerEvZero).1 (by decide),
   (destroy_null_noop.2.2.2 timerEvFive).2 (by decide)⟩

end LibGevent
